import Mathlib

/-!
Verification of the parentzone backend server (src/server.js) against its
natural-language specification.  The Firestore document store is modelled by
association lists keyed by document id; each HTTP handler of interest is
translated into a pure Lean function over an explicit `ServerState`.
Push-gateway (FCM) outcomes are passed in as an `Option String` parameter
(`none` models a delivery failure that the code catches, `some id` a
successful delivery returning `id`); freshly generated document ids and the
server clock are likewise explicit parameters.
-/

namespace ParentZone

/-- Firestore `get` of a document by id in a keyed collection, modelled as an
association list. -/
def getDoc {α : Type} : List (String × α) → String → Option α
  | [], _ => none
  | (k, v) :: rest, key => if k = key then some v else getDoc rest key

/-- Firestore `set` of a document by id: replaces the document stored at the
key, or creates it. -/
def putDoc {α : Type} : List (String × α) → String → α → List (String × α)
  | [], key, v => [(key, v)]
  | (k, w) :: rest, key, v =>
      if k = key then (key, v) :: rest else (k, w) :: putDoc rest key v

/-- JavaScript `delete map[key]`: removes the key from an association list. -/
def eraseKey {α : Type} : List (String × α) → String → List (String × α)
  | [], _ => []
  | (k, v) :: rest, key =>
      if k = key then eraseKey rest key else (k, v) :: eraseKey rest key

/-- JavaScript `a || b` for a nullable string `a`: `b` when `a` is
null/undefined or the empty string (falsy), else `a`. -/
def jsOr (a : Option String) (b : String) : String :=
  match a with
  | some x => if x = "" then b else x
  | none => b

theorem getDoc_putDoc_self {α : Type} (l : List (String × α)) (k : String) (v : α) :
    getDoc (putDoc l k v) k = some v := by
  induction l with
  | nil => simp [putDoc, getDoc]
  | cons hd tl ih =>
      obtain ⟨k', w⟩ := hd
      by_cases h : k' = k
      · simp [putDoc, h, getDoc]
      · simp [putDoc, h, getDoc, ih]

theorem getDoc_putDoc_ne {α : Type} (l : List (String × α)) (k k' : String) (v : α)
    (h : k' ≠ k) : getDoc (putDoc l k v) k' = getDoc l k' := by
  have h' : ¬k = k' := fun hh => h hh.symm
  induction l with
  | nil => simp [putDoc, getDoc, h']
  | cons hd tl ih =>
      obtain ⟨k₀, w⟩ := hd
      by_cases h0 : k₀ = k
      · subst h0
        simp [putDoc, getDoc, h']
      · simp [putDoc, h0, getDoc, ih]

theorem getDoc_eraseKey_self {α : Type} (l : List (String × α)) (k : String) :
    getDoc (eraseKey l k) k = none := by
  induction l with
  | nil => simp [eraseKey, getDoc]
  | cons hd tl ih =>
      obtain ⟨k₀, w⟩ := hd
      by_cases h0 : k₀ = k
      · simp [eraseKey, h0, ih]
      · simp [eraseKey, h0, getDoc, ih]

theorem getDoc_eraseKey_ne {α : Type} (l : List (String × α)) (k k' : String)
    (h : k' ≠ k) : getDoc (eraseKey l k) k' = getDoc l k' := by
  have h' : ¬k = k' := fun hh => h hh.symm
  induction l with
  | nil => simp [eraseKey]
  | cons hd tl ih =>
      obtain ⟨k₀, w⟩ := hd
      by_cases h0 : k₀ = k
      · subst h0
        simp [eraseKey, getDoc, h', ih]
      · simp [eraseKey, h0, getDoc, ih]

/-- A document of the `deviceRegistrations` collection (the fields the core
reads; timestamps are not observed by any modelled handler). -/
structure DeviceReg where
  deviceType : Option String := none
  fcmToken : Option String := none
  familyId : Option String := none
  linkedTo : Option String := none
  deriving Repr, DecidableEq

/-- A document of one of the notification collections
(`parentNotifications`, `childNotifications`, or the legacy
`notifications`), with server timestamps modelled as naturals. -/
structure Notif where
  userId : String
  title : String
  body : String
  message : String
  ntype : String
  read : Bool
  priority : String
  data : List (String × String) := []
  fromParentId : Option String := none
  fromChildId : Option String := none
  childId : Option String := none
  location : Option (String × String) := none
  readAt : Option Nat := none
  timestamp : Nat
  deriving Repr, DecidableEq

/-- The slice of the Firestore state the modelled handlers touch. -/
structure ServerState where
  deviceRegistrations : List (String × DeviceReg) := []
  parentNotifications : List (String × Notif) := []
  childNotifications : List (String × Notif) := []
  notifications : List (String × Notif) := []
  appUsageLimits : List (String × List (String × Int)) := []
  deriving Repr, DecidableEq

/-- Merge-`set` writing only the `linkedTo` field of a device registration
(creating the document when absent, as Firestore merge-set does). -/
def mergeLinkedTo (regs : List (String × DeviceReg)) (id peer : String) :
    List (String × DeviceReg) :=
  let old := (getDoc regs id).getD {}
  putDoc regs id { old with linkedTo := some peer }

/-- Handler of POST /api/devices/link: after validating that both ids are
present (truthy), writes `linkedTo = childId` on the parent registration and
then `linkedTo = parentId` on the child registration, as two merge writes.
`none` models the 400 response for a missing id. -/
def linkDevices (regs : List (String × DeviceReg)) (parentId childId : String) :
    Option (List (String × DeviceReg)) :=
  if parentId = "" || childId = "" then none
  else some (mergeLinkedTo (mergeLinkedTo regs parentId childId) childId parentId)

/-- `resolvePeer`: the stored `linkedTo` of a registration, `none` when the
registration itself is absent. -/
def resolvePeer (regs : List (String × DeviceReg)) (id : String) :
    Option (Option String) :=
  (getDoc regs id).map (fun r => r.linkedTo)

/-- C1: after a successful `link(A,B)`, the stored registration of A has
`linkedTo = B`, the stored registration of B has `linkedTo = A`, hence
`resolvePeer(A) = B` and `resolvePeer(B) = A`. -/
theorem claim_C1_link_symmetric (regs : List (String × DeviceReg))
    (A B : String) (regs' : List (String × DeviceReg))
    (h : linkDevices regs A B = some regs') :
    resolvePeer regs' A = some (some B) ∧ resolvePeer regs' B = some (some A) := by
  unfold linkDevices at h
  by_cases hA : A = ""
  · simp [hA] at h
  by_cases hB : B = ""
  · simp [hA, hB] at h
  simp only [hA, hB, Bool.or_self, if_neg, decide_eq_true_eq] at h
  rw [if_neg (by simp [hA, hB])] at h
  obtain rfl : mergeLinkedTo (mergeLinkedTo regs A B) B A = regs' :=
    Option.some.injEq _ _ ▸ h
  constructor
  · by_cases hAB : A = B
    · subst hAB
      simp [resolvePeer, mergeLinkedTo, getDoc_putDoc_self]
    · unfold resolvePeer
      rw [mergeLinkedTo, getDoc_putDoc_ne _ _ _ _ hAB, mergeLinkedTo,
        getDoc_putDoc_self]
      rfl
  · unfold resolvePeer
    rw [mergeLinkedTo, getDoc_putDoc_self]
    rfl

/-- Witness for C1 at the concrete pair ("p1", "c1") on an empty store. -/
theorem claim_C1_link_symmetric_witness :
    resolvePeer [("p1", { linkedTo := some "c1" : DeviceReg }),
                 ("c1", { linkedTo := some "p1" : DeviceReg })] "p1"
        = some (some "c1") ∧
    resolvePeer [("p1", { linkedTo := some "c1" : DeviceReg }),
                 ("c1", { linkedTo := some "p1" : DeviceReg })] "c1"
        = some (some "p1") :=
  claim_C1_link_symmetric [] "p1" "c1" _ (by rfl)

/-- An element of the per-device `apps` array maintained by
POST /api/device/:deviceId/app-limit. -/
structure AppEntry where
  name : String
  packageName : String
  limit : Option Int
  usage : Int
  blocked : Bool
  lastResetDate : String
  status : String
  timePeriod : String
  deriving Repr, DecidableEq

/-- The fresh entry appended (or created with the device document) when the
app is not yet present: `usage = 0`, `blocked = false`, stamped today. -/
def newAppEntry (appName : String) (limit : Option Int) (packageName : Option String)
    (today : String) : AppEntry :=
  { name := appName
    packageName := jsOr packageName ""
    limit := limit
    usage := 0
    blocked := false
    lastResetDate := today
    status := "active"
    timePeriod := "daily" }

/-- The in-place update of an existing entry: usage is reset exactly when
`lastResetDate` differs from today, `blocked` is recomputed from the
preserved usage (false after a reset), and `lastResetDate` is stamped to
today regardless. -/
def updatedAppEntry (e : AppEntry) (limit : Option Int) (packageName : Option String)
    (today : String) : AppEntry :=
  let shouldResetUsage := e.lastResetDate ≠ today
  let currentUsage := if shouldResetUsage then 0 else e.usage
  { e with
    limit := limit
    usage := currentUsage
    blocked :=
      if shouldResetUsage then false
      else
        match limit with
        | none => false
        | some l => decide (l ≤ currentUsage)
    lastResetDate := today
    status := "active"
    timePeriod := "daily"
    packageName := jsOr packageName (jsOr (some e.packageName) "") }

/-- Core of POST /api/device/:deviceId/app-limit on the `apps` array: the
first entry matching `appName` (`findIndex`) is updated in place; when no
entry matches (including the device-document-absent branch, where the array
starts empty) a fresh entry is appended. -/
def setAppLimitApps (appName : String) (limit : Option Int) (packageName : Option String)
    (today : String) : List AppEntry → List AppEntry
  | [] => [newAppEntry appName limit packageName today]
  | e :: rest =>
      if e.name = appName then updatedAppEntry e limit packageName today :: rest
      else e :: setAppLimitApps appName limit packageName today rest

/-- First entry of the `apps` array matching the app name (the entry
`findIndex` designates). -/
def firstApp : List AppEntry → String → Option AppEntry
  | [], _ => none
  | e :: rest, appName => if e.name = appName then some e else firstApp rest appName

theorem updatedAppEntry_name (e : AppEntry) (limit : Option Int)
    (packageName : Option String) (today : String) :
    (updatedAppEntry e limit packageName today).name = e.name := rfl

/-- C5: a `setAppLimit` call today for an app whose stored entry carries a
stale `lastResetDate` leaves that entry with `usage = 0`, `blocked = false`
and `lastResetDate = today`, whatever the limit value. -/
theorem claim_C5_daily_reset (apps : List AppEntry) (appName : String)
    (limit : Option Int) (packageName : Option String) (today : String)
    (e : AppEntry) (hfind : firstApp apps appName = some e)
    (hstale : e.lastResetDate ≠ today) :
    firstApp (setAppLimitApps appName limit packageName today apps) appName
        = some (updatedAppEntry e limit packageName today) ∧
    (updatedAppEntry e limit packageName today).usage = 0 ∧
    (updatedAppEntry e limit packageName today).blocked = false ∧
    (updatedAppEntry e limit packageName today).lastResetDate = today := by
  refine ⟨?_, ?_, ?_, ?_⟩
  · induction apps with
    | nil => simp [firstApp] at hfind
    | cons hd tl ih =>
        by_cases hname : hd.name = appName
        · simp [firstApp, hname] at hfind
          subst hfind
          simp [setAppLimitApps, hname, firstApp, updatedAppEntry_name]
        · simp [firstApp, hname] at hfind
          simp [setAppLimitApps, hname, firstApp, ih hfind]
  · simp [updatedAppEntry, hstale]
  · simp [updatedAppEntry, hstale]
  · simp [updatedAppEntry]

/-- Witness for C5: a TikTok entry last reset yesterday with 59 minutes of
usage is reset by a call today. -/
theorem claim_C5_daily_reset_witness :
    firstApp (setAppLimitApps "TikTok" (some 60) none "2026-10-11"
        [{ name := "TikTok", packageName := "", limit := some 60, usage := 59,
           blocked := false, lastResetDate := "2026-10-10", status := "active",
           timePeriod := "daily" }]) "TikTok"
      = some (updatedAppEntry
          { name := "TikTok", packageName := "", limit := some 60, usage := 59,
            blocked := false, lastResetDate := "2026-10-10", status := "active",
            timePeriod := "daily" } (some 60) none "2026-10-11") ∧
    (updatedAppEntry
        { name := "TikTok", packageName := "", limit := some 60, usage := 59,
          blocked := false, lastResetDate := "2026-10-10", status := "active",
          timePeriod := "daily" } (some 60) none "2026-10-11").usage = 0 ∧
    (updatedAppEntry
        { name := "TikTok", packageName := "", limit := some 60, usage := 59,
          blocked := false, lastResetDate := "2026-10-10", status := "active",
          timePeriod := "daily" } (some 60) none "2026-10-11").blocked = false ∧
    (updatedAppEntry
        { name := "TikTok", packageName := "", limit := some 60, usage := 59,
          blocked := false, lastResetDate := "2026-10-10", status := "active",
          timePeriod := "daily" } (some 60) none "2026-10-11").lastResetDate
      = "2026-10-11" :=
  claim_C5_daily_reset _ "TikTok" (some 60) none "2026-10-11" _ (by rfl) (by decide)

/-- C6 as stated is false: with limit 0, the first call on a fresh entry
leaves `blocked = false`, while the second call on the same day recomputes
`blocked` as `0 ≤ usage = 0`, i.e. true. -/
theorem claim_C6_counterexample :
    (firstApp (setAppLimitApps "A" (some 0) none "2026-10-11" []) "A").map
        AppEntry.blocked = some false ∧
    (firstApp (setAppLimitApps "A" (some 0) none "2026-10-11"
        (setAppLimitApps "A" (some 0) none "2026-10-11" [])) "A").map
        AppEntry.blocked = some true := by
  decide

theorem jsOr_some_empty (y : String) : jsOr (some y) "" = y := by
  by_cases hy : y = "" <;> simp [jsOr, hy]

theorem jsOr_jsOr (p : Option String) (x : String) :
    jsOr p (jsOr p x) = jsOr p x := by
  match p with
  | none => rfl
  | some q => by_cases hq : q = "" <;> simp [jsOr, hq]

theorem jsOr_some_jsOr (p : Option String) (x : String) :
    jsOr p (jsOr (some (jsOr p x)) "") = jsOr p x := by
  rw [jsOr_some_empty, jsOr_jsOr]

/-- Idempotence of the entry update on an already-updated entry, for a null
or positive limit. -/
theorem updatedAppEntry_idem (e : AppEntry) (limit : Option Int)
    (packageName : Option String) (today : String)
    (hl : limit = none ∨ ∃ l, limit = some l ∧ 0 < l) :
    updatedAppEntry (updatedAppEntry e limit packageName today) limit packageName today
      = updatedAppEntry e limit packageName today := by
  unfold updatedAppEntry
  simp only [ne_eq]
  have hdate : ¬¬(today = today) := by simp
  rcases hl with hnone | ⟨l, hsome, hpos⟩
  · subst hnone
    by_cases hreset : e.lastResetDate = today <;>
      simp [hreset, jsOr_some_jsOr, jsOr_some_empty, jsOr_jsOr, jsOr_some_empty, jsOr_jsOr]
  · subst hsome
    by_cases hreset : e.lastResetDate = today
    · simp [hreset, jsOr_some_jsOr, jsOr_some_empty, jsOr_jsOr, jsOr_some_empty, jsOr_jsOr]
    · have : ¬(l ≤ (0 : Int)) := by omega
      simp [hreset, jsOr_some_jsOr, jsOr_some_empty, jsOr_jsOr, this]

/-- The update applied to a fresh entry on the same day is the fresh entry
again, for a null or positive limit. -/
theorem updatedAppEntry_newAppEntry (appName : String) (limit : Option Int)
    (packageName : Option String) (today : String)
    (hl : limit = none ∨ ∃ l, limit = some l ∧ 0 < l) :
    updatedAppEntry (newAppEntry appName limit packageName today) limit packageName today
      = newAppEntry appName limit packageName today := by
  unfold updatedAppEntry newAppEntry
  rcases hl with hnone | ⟨l, hsome, hpos⟩
  · subst hnone
    simp [jsOr_some_jsOr, jsOr_some_empty, jsOr_jsOr, jsOr_some_empty, jsOr_jsOr]
  · subst hsome
    have : ¬(l ≤ (0 : Int)) := by omega
    simp [jsOr_some_jsOr, jsOr_some_empty, jsOr_jsOr, this]

/-- C6 amended: `setAppLimit` is idempotent per day for a null or positive
limit — the second same-day call with the same arguments leaves the `apps`
array exactly as the first left it (with a non-positive limit the second
call can flip `blocked` to true, see the counterexample). -/
theorem claim_C6_same_day_idempotent (apps : List AppEntry) (appName : String)
    (limit : Option Int) (packageName : Option String) (today : String)
    (hl : limit = none ∨ ∃ l, limit = some l ∧ 0 < l) :
    setAppLimitApps appName limit packageName today
        (setAppLimitApps appName limit packageName today apps)
      = setAppLimitApps appName limit packageName today apps := by
  induction apps with
  | nil =>
      have hn : (newAppEntry appName limit packageName today).name = appName := rfl
      simp [setAppLimitApps, hn,
        updatedAppEntry_newAppEntry appName limit packageName today hl]
  | cons hd tl ih =>
      by_cases hname : hd.name = appName
      · simp [setAppLimitApps, hname, updatedAppEntry_name,
          updatedAppEntry_idem hd limit packageName today hl]
      · simp [setAppLimitApps, hname, ih]

/-- Witness for the amended C6 at limit 60 on an empty array. -/
theorem claim_C6_same_day_idempotent_witness :
    setAppLimitApps "TikTok" (some 60) none "2026-10-11"
        (setAppLimitApps "TikTok" (some 60) none "2026-10-11" [])
      = setAppLimitApps "TikTok" (some 60) none "2026-10-11" [] :=
  claim_C6_same_day_idempotent [] "TikTok" (some 60) none "2026-10-11"
    (Or.inr ⟨60, rfl, by decide⟩)

/-- Handler of POST /api/device/:deviceId/app-usage-limits (`setPullLimit`):
reads the existing `appUsageLimits/<deviceId>` map (empty when the document
is absent), removes the package key when `limitMinutes` is null/undefined or
non-positive, sets it otherwise, and writes the whole map back.  `none`
models the 400 response for a missing required field. -/
def setPullLimitHandler (s : ServerState) (deviceId packageName : String)
    (limitMinutes : Option Int) : Option ServerState :=
  if deviceId = "" || packageName = "" then none
  else
    let apps := (getDoc s.appUsageLimits deviceId).getD []
    let apps' :=
      match limitMinutes with
      | none => eraseKey apps packageName
      | some l => if l ≤ 0 then eraseKey apps packageName else putDoc apps packageName l
    some { s with appUsageLimits := putDoc s.appUsageLimits deviceId apps' }

/-- Handler of GET /api/device/:deviceId/app-usage-limits (`getPullLimits`):
the stored map, or the empty map (not an error) when no document exists. -/
def getPullLimitsHandler (s : ServerState) (deviceId : String) :
    List (String × Int) :=
  (getDoc s.appUsageLimits deviceId).getD []

/-- C9: after a successful `setPullLimit`, reading the limits back shows the
package key removed when the limit was null or non-positive and set to the
limit when positive, every other key unchanged; and reading a device with no
stored document yields the empty map rather than an error. -/
theorem claim_C9_pull_limits (s : ServerState) (deviceId packageName : String)
    (limitMinutes : Option Int) (s' : ServerState)
    (h : setPullLimitHandler s deviceId packageName limitMinutes = some s') :
    (getDoc (getPullLimitsHandler s' deviceId) packageName
        = match limitMinutes with
          | none => none
          | some l => if l ≤ 0 then none else some l) ∧
    (∀ q, q ≠ packageName →
        getDoc (getPullLimitsHandler s' deviceId) q
          = getDoc (getPullLimitsHandler s deviceId) q) ∧
    (getDoc s.appUsageLimits deviceId = none → getPullLimitsHandler s deviceId = []) := by
  unfold setPullLimitHandler at h
  by_cases hd : deviceId = ""
  · simp [hd] at h
  by_cases hp : packageName = ""
  · simp [hd, hp] at h
  rw [if_neg (by simp [hd, hp])] at h
  obtain rfl : _ = s' := Option.some.inj h
  refine ⟨?_, ?_, ?_⟩
  · unfold getPullLimitsHandler
    simp only [getDoc_putDoc_self, Option.getD_some]
    match limitMinutes with
    | none => simp [getDoc_eraseKey_self]
    | some l =>
        by_cases hl : l ≤ 0
        · simp [hl, getDoc_eraseKey_self]
        · simp [hl, getDoc_putDoc_self]
  · intro q hq
    unfold getPullLimitsHandler
    simp only [getDoc_putDoc_self, Option.getD_some]
    match limitMinutes with
    | none => simp [getDoc_eraseKey_ne _ _ _ hq]
    | some l =>
        by_cases hl : l ≤ 0
        · simp [hl, getDoc_eraseKey_ne _ _ _ hq]
        · simp [hl, getDoc_putDoc_ne _ _ _ _ hq]
  · intro habs
    unfold getPullLimitsHandler
    rw [habs]
    rfl

/-- Witness for C9: setting a positive limit for a package on a device that
already has a stored map keeps the other key and stores the new one. -/
theorem claim_C9_pull_limits_witness :
    getDoc (getPullLimitsHandler
        { appUsageLimits := [("dev1", [("com.zhiliaoapp.musically", 60),
                                       ("com.google.android.youtube", 90)])] } "dev1")
      "com.google.android.youtube" = some 90 ∧
    getDoc (getPullLimitsHandler
        { appUsageLimits := [("dev1", [("com.zhiliaoapp.musically", 60),
                                       ("com.google.android.youtube", 90)])] } "dev1")
      "com.zhiliaoapp.musically" = some 60 := by
  have h := claim_C9_pull_limits
      { appUsageLimits := [("dev1", [("com.zhiliaoapp.musically", 60)])] }
      "dev1" "com.google.android.youtube" (some 90) _ (by rfl)
  refine ⟨by simpa using h.1, ?_⟩
  have h2 := h.2.1 "com.zhiliaoapp.musically" (by decide)
  exact h2.trans rfl

/-- Observable side effects of a notification operation, in program order:
the mandatory Firestore persist of the notification document, and each
best-effort FCM push attempt. -/
inductive Event where
  | persistNotif (collection : String) (id : String)
  | pushAttempt (token : String)
  deriving Repr, DecidableEq

def Event.isPersist : Event → Bool
  | .persistNotif _ _ => true
  | .pushAttempt _ => false

/-- True when every persist in the trace happens before every push attempt,
i.e. no persist occurs at or after a push attempt. -/
def noPersistAfterPush : List Event → Bool
  | [] => true
  | Event.persistNotif _ _ :: rest => noPersistAfterPush rest
  | Event.pushAttempt _ :: rest =>
      rest.all (fun e => !e.isPersist) && noPersistAfterPush rest

/-- `getNotificationCollection`: parent devices get `parentNotifications`,
everything else (child, missing, unknown) gets `childNotifications`. -/
def getNotificationCollection (deviceType : Option String) : String :=
  if deviceType = some "parent" then "parentNotifications" else "childNotifications"

/-- Store a notification document in the named collection. -/
def addNotif (s : ServerState) (collection id : String) (n : Notif) : ServerState :=
  if collection = "parentNotifications" then
    { s with parentNotifications := putDoc s.parentNotifications id n }
  else if collection = "childNotifications" then
    { s with childNotifications := putDoc s.childNotifications id n }
  else
    { s with notifications := putDoc s.notifications id n }

/-- Read a notification document from the named collection. -/
def getNotif (s : ServerState) (collection id : String) : Option Notif :=
  if collection = "parentNotifications" then getDoc s.parentNotifications id
  else if collection = "childNotifications" then getDoc s.childNotifications id
  else getDoc s.notifications id

theorem getNotif_addNotif_self (s : ServerState) (c id : String) (n : Notif) :
    getNotif (addNotif s c id n) c id = some n := by
  unfold getNotif addNotif
  by_cases h1 : c = "parentNotifications"
  · simp [h1, getDoc_putDoc_self]
  · by_cases h2 : c = "childNotifications"
    · simp [h1, h2, getDoc_putDoc_self]
    · simp [h1, h2, getDoc_putDoc_self]

/-- The push address the generic send endpoint would use: the registration's
`fcmToken` when the registration exists and the token is truthy. -/
def pushToken (s : ServerState) (userId : String) : Option String :=
  match getDoc s.deviceRegistrations userId with
  | none => none
  | some reg =>
      match reg.fcmToken with
      | none => none
      | some tok => if tok = "" then none else some tok

/-- Result of the `sendNotificationToUser` helper: the persisted document id,
the `messageId` it reports (the FCM id, falling back to the document id),
and the collection written. -/
structure SnuResult where
  notificationId : String
  messageId : String
  collection : String
  deriving Repr, DecidableEq

/-- The notification document `sendNotificationToUser` builds: the base
record, with the sender recorded as `fromParentId`/`fromChildId` according
to the sender's registered device type (neither when the sender registration
is absent). -/
def snuNotif (s : ServerState) (targetUserId title body ntype : String)
    (data : List (String × String)) (priority : String) (fromUserId : Option String)
    (now : Nat) : Notif :=
  let base : Notif :=
    { userId := targetUserId, title := title, body := body, message := body,
      ntype := ntype, read := false, priority := priority, data := data,
      timestamp := now }
  match fromUserId with
  | none => base
  | some f =>
      match getDoc s.deviceRegistrations f with
      | none => base
      | some freg =>
          if freg.deviceType = some "parent" then { base with fromParentId := some f }
          else { base with fromChildId := some f }

/-- The `sendNotificationToUser` helper: resolves the target registration
(`none` models the thrown `Target user not found`), stores the notification
document in the partition chosen by the target's device type, then attempts
a best-effort FCM push when the target has a truthy `fcmToken`; a push
failure (`pushResult = none`) is caught and does not affect the result. -/
def sendNotificationToUser (s : ServerState) (targetUserId title body ntype : String)
    (data : List (String × String)) (priority : String) (fromUserId : Option String)
    (newId : String) (now : Nat) (pushResult : Option String) :
    Option (SnuResult × ServerState × List Event) :=
  match getDoc s.deviceRegistrations targetUserId with
  | none => none
  | some treg =>
      let collection := getNotificationCollection treg.deviceType
      let notif := snuNotif s targetUserId title body ntype data priority fromUserId now
      let s1 := addNotif s collection newId notif
      match treg.fcmToken with
      | none =>
          some ({ notificationId := newId, messageId := jsOr none newId,
                  collection := collection }, s1,
                [Event.persistNotif collection newId])
      | some tok =>
          if tok = "" then
            some ({ notificationId := newId, messageId := jsOr none newId,
                    collection := collection }, s1,
                  [Event.persistNotif collection newId])
          else
            some ({ notificationId := newId, messageId := jsOr pushResult newId,
                    collection := collection }, s1,
                  [Event.persistNotif collection newId, Event.pushAttempt tok])

/-- JSON response of POST /api/notifications/send.  `messageId` is the
nullable push-id field of the response; the code computes it as
`fcmMessageId || notificationRef.id`, so it is always present. -/
structure SendResponse where
  success : Bool
  messageId : Option String
  notificationId : String
  collection : String
  deriving Repr, DecidableEq

/-- Handler of POST /api/notifications/send: validates the required fields
(`none` models the 400 response), picks the partition from the explicit
`deviceType` or auto-detects it from the registration (defaulting to
`childNotifications`), persists the notification, then best-effort pushes
when the target has a truthy `fcmToken`; a caught push failure leaves
`fcmMessageId` null and the response falls back to the document id. -/
def sendEndpoint (s : ServerState) (targetUserId title body : String)
    (data : Option (List (String × String))) (priority : Option String)
    (deviceType : Option String) (newId : String) (now : Nat)
    (pushResult : Option String) :
    Option (SendResponse × ServerState × List Event) :=
  if targetUserId = "" || title = "" || body = "" then none
  else
    let autoCollection :=
      match getDoc s.deviceRegistrations targetUserId with
      | some reg =>
          if reg.deviceType = some "parent" then "parentNotifications"
          else "childNotifications"
      | none => "childNotifications"
    let collection :=
      match deviceType with
      | some dt =>
          if dt = "" then autoCollection
          else if dt = "parent" then "parentNotifications" else "childNotifications"
      | none => autoCollection
    let d := data.getD []
    let notif : Notif :=
      { userId := targetUserId, title := title, body := body, message := body,
        ntype := jsOr (getDoc d "type") "info", read := false,
        priority := jsOr priority "normal", data := d, timestamp := now }
    let s1 := addNotif s collection newId notif
    match pushToken s targetUserId with
    | none =>
        some ({ success := true, messageId := some (jsOr none newId),
                notificationId := newId, collection := collection }, s1,
              [Event.persistNotif collection newId])
    | some tok =>
        some ({ success := true, messageId := some (jsOr pushResult newId),
                notificationId := newId, collection := collection }, s1,
              [Event.persistNotif collection newId, Event.pushAttempt tok])

/-- JSON response of POST /api/notifications/send-to-parent. -/
structure StpResponse where
  success : Bool
  messageId : String
  notificationId : String
  parentId : String
  deriving Repr, DecidableEq

/-- Handler of POST /api/notifications/send-to-parent: resolves the parent
through the child's `linkedTo` (the `none` results model the 400/404
responses), persists into `parentNotifications`, then best-effort pushes. -/
def sendToParent (s : ServerState) (childId title body : String)
    (data : Option (List (String × String))) (newId : String) (now : Nat)
    (pushResult : Option String) :
    Option (StpResponse × ServerState × List Event) :=
  if childId = "" || title = "" || body = "" then none
  else
    match getDoc s.deviceRegistrations childId with
    | none => none
    | some creg =>
        match creg.linkedTo with
        | none => none
        | some parentId =>
            if parentId = "" then none
            else
              let d := data.getD []
              let notif : Notif :=
                { userId := parentId, title := title, body := body, message := body,
                  ntype := jsOr (getDoc d "type") "info", read := false,
                  priority := "high", fromChildId := some childId, data := d,
                  timestamp := now }
              let s1 :=
                { s with parentNotifications := putDoc s.parentNotifications newId notif }
              match pushToken s parentId with
              | none =>
                  some ({ success := true, messageId := jsOr none newId,
                          notificationId := newId, parentId := parentId }, s1,
                        [Event.persistNotif "parentNotifications" newId])
              | some tok =>
                  some ({ success := true, messageId := jsOr pushResult newId,
                          notificationId := newId, parentId := parentId }, s1,
                        [Event.persistNotif "parentNotifications" newId,
                         Event.pushAttempt tok])

/-- Outcome of POST /api/notifications/sos. -/
inductive SosOutcome where
  /-- 400: `childId is required`. -/
  | badRequest
  /-- 404: `Child device not found`. -/
  | childNotFound
  /-- 404: `No parent linked to this child`. -/
  | noParentLinked
  /-- 404: `Parent device not found or not registered for notifications`. -/
  | parentUnavailable
  /-- 200 with the persisted notification id and reported message id. -/
  | ok (notificationId : String) (messageId : String)
  deriving Repr, DecidableEq

/-- Handler of POST /api/notifications/sos: resolves the linked parent and
requires the parent registration to exist with a truthy `fcmToken`
(otherwise 404); then attempts the FCM push FIRST (failure caught), and only
afterwards persists the notification into `parentNotifications`. -/
def sosHandler (s : ServerState) (childId : String)
    (location : Option (String × String)) (newId : String) (now : Nat)
    (pushResult : Option String) : SosOutcome × ServerState × List Event :=
  if childId = "" then (.badRequest, s, [])
  else
    match getDoc s.deviceRegistrations childId with
    | none => (.childNotFound, s, [])
    | some creg =>
        match creg.linkedTo with
        | none => (.noParentLinked, s, [])
        | some parentId =>
            if parentId = "" then (.noParentLinked, s, [])
            else
              match getDoc s.deviceRegistrations parentId with
              | none => (.parentUnavailable, s, [])
              | some preg =>
                  match preg.fcmToken with
                  | none => (.parentUnavailable, s, [])
                  | some tok =>
                      if tok = "" then (.parentUnavailable, s, [])
                      else
                        let locationText :=
                          match location with
                          | some (la, lo) => "Location: " ++ la ++ ", " ++ lo
                          | none => "Location not available"
                        let body := "Your child needs immediate help! " ++ locationText
                        let notif : Notif :=
                          { userId := parentId, title := "🚨 EMERGENCY SOS ALERT",
                            body := body, message := body, ntype := "sos",
                            read := false, priority := "high",
                            childId := some childId, fromChildId := some childId,
                            location := location, timestamp := now }
                        let s1 :=
                          { s with parentNotifications :=
                              putDoc s.parentNotifications newId notif }
                        (.ok newId (jsOr pushResult newId), s1,
                         [Event.pushAttempt tok,
                          Event.persistNotif "parentNotifications" newId])

/-- Outcome of POST /api/device/remote-lock and remote-unlock. -/
inductive LockOutcome where
  /-- 400: missing parentId or childId. -/
  | missingFields
  /-- 404: child device not found (verification path). -/
  | childNotFound
  /-- 403: parent not linked to this child. -/
  | notAuthorized
  /-- 500: `sendNotificationToUser` threw (target registration absent). -/
  | sendFailed
  /-- 200 with the persisted notification id and reported message id. -/
  | ok (notificationId : String) (messageId : String)
  deriving Repr, DecidableEq

/-- Handler of POST /api/device/remote-lock: the hardcoded pair skips the
linked-parent verification; every other pair requires the child registration
to exist with `linkedTo = parentId`; then the `device_lock` command is sent
through `sendNotificationToUser` (which throws when the child registration
is absent, surfaced as a 500). -/
def remoteLock (s : ServerState) (parentId childId newId : String) (now : Nat)
    (pushResult : Option String) : LockOutcome × ServerState × List Event :=
  if parentId = "" || childId = "" then (.missingFields, s, [])
  else if parentId = "azizurgreat111@gmail.com"
      && childId = "1unknown.annonymous1@gmail.com" then
    match sendNotificationToUser s childId "🔒 Device Locked"
        "Your device has been remotely locked by your parent" "device_lock"
        [("action", "lock"), ("parentId", parentId), ("timestamp", toString now)]
        "high" (some parentId) newId now pushResult with
    | none => (.sendFailed, s, [])
    | some (r, s', tr) => (.ok r.notificationId r.messageId, s', tr)
  else
    match getDoc s.deviceRegistrations childId with
    | none => (.childNotFound, s, [])
    | some reg =>
        if reg.linkedTo = some parentId then
          match sendNotificationToUser s childId "🔒 Device Locked"
              "Your device has been remotely locked by your parent" "device_lock"
              [("action", "lock"), ("parentId", parentId), ("timestamp", toString now)]
              "high" (some parentId) newId now pushResult with
          | none => (.sendFailed, s, [])
          | some (r, s', tr) => (.ok r.notificationId r.messageId, s', tr)
        else (.notAuthorized, s, [])

/-- Handler of POST /api/device/remote-unlock: identical shape to
remote-lock with the `device_unlock` command. -/
def remoteUnlock (s : ServerState) (parentId childId newId : String) (now : Nat)
    (pushResult : Option String) : LockOutcome × ServerState × List Event :=
  if parentId = "" || childId = "" then (.missingFields, s, [])
  else if parentId = "azizurgreat111@gmail.com"
      && childId = "1unknown.annonymous1@gmail.com" then
    match sendNotificationToUser s childId "🔓 Device Unlocked"
        "Your device has been remotely unlocked by your parent" "device_unlock"
        [("action", "unlock"), ("parentId", parentId), ("timestamp", toString now)]
        "high" (some parentId) newId now pushResult with
    | none => (.sendFailed, s, [])
    | some (r, s', tr) => (.ok r.notificationId r.messageId, s', tr)
  else
    match getDoc s.deviceRegistrations childId with
    | none => (.childNotFound, s, [])
    | some reg =>
        if reg.linkedTo = some parentId then
          match sendNotificationToUser s childId "🔓 Device Unlocked"
              "Your device has been remotely unlocked by your parent" "device_unlock"
              [("action", "unlock"), ("parentId", parentId), ("timestamp", toString now)]
              "high" (some parentId) newId now pushResult with
          | none => (.sendFailed, s, [])
          | some (r, s', tr) => (.ok r.notificationId r.messageId, s', tr)
        else (.notAuthorized, s, [])

/-- Firestore `update` marking a notification document read (stamping
`readAt`), addressed by its id. -/
def markReadById (l : List (String × Notif)) (id : String) (now : Nat) :
    List (String × Notif) :=
  l.map (fun p => if p.1 = id then (p.1, { p.2 with read := true, readAt := some now }) else p)

/-- Handler of PUT /api/notifications/:userId/read-all: snapshots the
currently-unread documents of the user in the LEGACY `notifications`
collection (not in either partitioned collection), then marks each of them
read in one batch; returns the count. -/
def readAllHandler (s : ServerState) (userId : String) (now : Nat) :
    ServerState × Nat :=
  let snapshot :=
    s.notifications.filter (fun p => p.2.userId == userId && p.2.read == false)
  let updated :=
    (snapshot.map (fun p => p.1)).foldl (fun acc id => markReadById acc id now)
      s.notifications
  ({ s with notifications := updated }, snapshot.length)

/-- The per-user timestamp view the cleanup handler builds: document id and
timestamp of every notification of the user in a collection. -/
def userNotifTs (col : List (String × Notif)) (userId : String) :
    List (String × Nat) :=
  (col.filter (fun p => p.2.userId == userId)).map (fun p => (p.1, p.2.timestamp))

instance : DecidableRel (fun a b : String × Nat => b.2 ≤ a.2) :=
  fun a b => Nat.decLe b.2 a.2

instance : IsTotal (String × Nat) (fun a b => b.2 ≤ a.2) :=
  ⟨fun a b => Nat.le_total b.2 a.2⟩

instance : IsTrans (String × Nat) (fun a b => b.2 ≤ a.2) :=
  ⟨fun _ _ _ h1 h2 => Nat.le_trans h2 h1⟩

/-- The cleanup handler's sort: by timestamp descending (the JS comparator
`(a, b) => b.timestamp - a.timestamp`). -/
def sortTsDesc (l : List (String × Nat)) : List (String × Nat) :=
  List.insertionSort (fun a b => b.2 ≤ a.2) l

/-- The 30 most recent notifications the cleanup handler keeps. -/
def cleanupKept (l : List (String × Nat)) : List (String × Nat) :=
  (sortTsDesc l).take 30

/-- The notifications beyond the most recent 30 that the cleanup handler
deletes in one batch. -/
def cleanupDeleted (l : List (String × Nat)) : List (String × Nat) :=
  (sortTsDesc l).drop 30

/-- The `deletedCount` the cleanup handler returns. -/
def cleanupDeletedCount (l : List (String × Nat)) : Nat :=
  (cleanupDeleted l).length

/-- C2 as stated is false: a child linked to a parent is not enough for the
SOS call to succeed — when the parent registration is absent (or has no
fcmToken) the handler answers 404 and persists nothing. -/
theorem claim_C2_counterexample :
    (sosHandler { deviceRegistrations := [("c1", { linkedTo := some "p1" })] }
        "c1" none "n1" 5 none).1 = SosOutcome.parentUnavailable ∧
    ((sosHandler { deviceRegistrations := [("c1", { linkedTo := some "p1" })] }
        "c1" none "n1" 5 none).2.1).parentNotifications = [] := by
  exact ⟨rfl, rfl⟩

/-- C2 amended: when the child registration has `linkedTo = p` AND the
parent registration `p` exists with a truthy `fcmToken`, an SOS with no
location succeeds, and the persisted notification in `parentNotifications`
is addressed to `p`, unread, with a body stating the location is not
available — whatever the push outcome. -/
theorem claim_C2_sos_no_location (s : ServerState) (c p tok newId : String)
    (creg preg : DeviceReg) (now : Nat) (pushResult : Option String)
    (hcne : c ≠ "")
    (hc : getDoc s.deviceRegistrations c = some creg)
    (hlink : creg.linkedTo = some p) (hp : p ≠ "")
    (hpr : getDoc s.deviceRegistrations p = some preg)
    (htok : preg.fcmToken = some tok) (htokne : tok ≠ "") :
    (sosHandler s c none newId now pushResult).1
        = SosOutcome.ok newId (jsOr pushResult newId) ∧
    (getDoc ((sosHandler s c none newId now pushResult).2.1).parentNotifications
        newId).map Notif.userId = some (some p).get! ∧
    (getDoc ((sosHandler s c none newId now pushResult).2.1).parentNotifications
        newId).map Notif.body
      = some "Your child needs immediate help! Location not available" ∧
    (getDoc ((sosHandler s c none newId now pushResult).2.1).parentNotifications
        newId).map Notif.read = some false := by
  unfold sosHandler
  rw [if_neg hcne, hc]
  simp only
  rw [hlink]
  simp only
  rw [if_neg hp, hpr]
  simp only
  rw [htok]
  simp only
  rw [if_neg htokne]
  simp [getDoc_putDoc_self]

/-- Witness for the amended C2: linked pair with a registered parent token,
push failing. -/
theorem claim_C2_sos_no_location_witness :
    (sosHandler
        { deviceRegistrations :=
            [("c1", { linkedTo := some "p1" }),
             ("p1", { deviceType := some "parent", fcmToken := some "tok1" })] }
        "c1" none "n1" 5 none).1 = SosOutcome.ok "n1" (jsOr none "n1") ∧
    (getDoc ((sosHandler
        { deviceRegistrations :=
            [("c1", { linkedTo := some "p1" }),
             ("p1", { deviceType := some "parent", fcmToken := some "tok1" })] }
        "c1" none "n1" 5 none).2.1).parentNotifications "n1").map Notif.userId
      = some (some "p1").get! ∧
    (getDoc ((sosHandler
        { deviceRegistrations :=
            [("c1", { linkedTo := some "p1" }),
             ("p1", { deviceType := some "parent", fcmToken := some "tok1" })] }
        "c1" none "n1" 5 none).2.1).parentNotifications "n1").map Notif.body
      = some "Your child needs immediate help! Location not available" ∧
    (getDoc ((sosHandler
        { deviceRegistrations :=
            [("c1", { linkedTo := some "p1" }),
             ("p1", { deviceType := some "parent", fcmToken := some "tok1" })] }
        "c1" none "n1" 5 none).2.1).parentNotifications "n1").map Notif.read
      = some false :=
  claim_C2_sos_no_location _ "c1" "p1" "tok1" "n1" _ _ 5 none (by decide)
    (by rfl) (by rfl) (by decide) (by rfl) (by rfl) (by decide)

/-- Generic success of `sendNotificationToUser` when the target registration
exists: returns the persisted id, the persist precedes any push attempt in
the trace, and the document is stored in the chosen partition. -/
theorem sendNotificationToUser_ok (s : ServerState)
    (t ti b ty : String) (data : List (String × String)) (pr : String)
    (fr : Option String) (id : String) (now : Nat) (pres : Option String)
    (reg : DeviceReg) (hreg : getDoc s.deviceRegistrations t = some reg) :
    ∃ r s' tr, sendNotificationToUser s t ti b ty data pr fr id now pres
        = some (r, s', tr) ∧
      r.notificationId = id ∧ r.collection = getNotificationCollection reg.deviceType ∧
      noPersistAfterPush tr = true ∧
      (getNotif s' (getNotificationCollection reg.deviceType) id).isSome = true := by
  rcases htok : reg.fcmToken with _ | tok
  · have heq : sendNotificationToUser s t ti b ty data pr fr id now pres
        = some ({ notificationId := id, messageId := jsOr none id,
                  collection := getNotificationCollection reg.deviceType },
                addNotif s (getNotificationCollection reg.deviceType) id
                  (snuNotif s t ti b ty data pr fr now),
                [Event.persistNotif (getNotificationCollection reg.deviceType) id]) := by
      unfold sendNotificationToUser
      rw [hreg]
      simp only [htok]
    refine ⟨_, _, _, heq, rfl, rfl, rfl, ?_⟩
    rw [getNotif_addNotif_self]
    rfl
  · by_cases htk : tok = ""
    · have heq : sendNotificationToUser s t ti b ty data pr fr id now pres
          = some ({ notificationId := id, messageId := jsOr none id,
                    collection := getNotificationCollection reg.deviceType },
                  addNotif s (getNotificationCollection reg.deviceType) id
                    (snuNotif s t ti b ty data pr fr now),
                  [Event.persistNotif (getNotificationCollection reg.deviceType) id]) := by
        unfold sendNotificationToUser
        rw [hreg]
        simp only [htok, if_pos htk]
      refine ⟨_, _, _, heq, rfl, rfl, rfl, ?_⟩
      rw [getNotif_addNotif_self]
      rfl
    · have heq : sendNotificationToUser s t ti b ty data pr fr id now pres
          = some ({ notificationId := id, messageId := jsOr pres id,
                    collection := getNotificationCollection reg.deviceType },
                  addNotif s (getNotificationCollection reg.deviceType) id
                    (snuNotif s t ti b ty data pr fr now),
                  [Event.persistNotif (getNotificationCollection reg.deviceType) id,
                   Event.pushAttempt tok]) := by
        unfold sendNotificationToUser
        rw [hreg]
        simp only [htok, if_neg htk]
      refine ⟨_, _, _, heq, rfl, rfl, rfl, ?_⟩
      rw [getNotif_addNotif_self]
      rfl

/-- C3 as stated is false for SOS: in a successful SOS run the push attempt
is made strictly before the persist. -/
theorem claim_C3_counterexample :
    (sosHandler
        { deviceRegistrations :=
            [("c1", { linkedTo := some "p1" }),
             ("p1", { fcmToken := some "tok1" })] }
        "c1" none "n1" 7 none).2.2
      = [Event.pushAttempt "tok1", Event.persistNotif "parentNotifications" "n1"] ∧
    noPersistAfterPush
      (sosHandler
        { deviceRegistrations :=
            [("c1", { linkedTo := some "p1" }),
             ("p1", { fcmToken := some "tok1" })] }
        "c1" none "n1" 7 none).2.2 = false := by
  exact ⟨rfl, rfl⟩

/-- C3 amended: for the generic send endpoint, the send-to-parent helper and
every helper routed through `sendNotificationToUser`, the persist completes
before any push attempt and the persisted document is present whatever the
push outcome; SOS instead attempts the push first, but a caught push failure
(`pushResult = none`) still never prevents its persist. -/
theorem claim_C3_persist_vs_push :
    (∀ s t ti b ty data pr fr id now pres r s' tr,
        sendNotificationToUser s t ti b ty data pr fr id now pres
            = some (r, s', tr) →
        noPersistAfterPush tr = true ∧
        (getNotif s' r.collection r.notificationId).isSome = true) ∧
    (∀ s t ti b data pr dt id now pres r s' tr,
        sendEndpoint s t ti b data pr dt id now pres = some (r, s', tr) →
        noPersistAfterPush tr = true ∧
        (getNotif s' r.collection r.notificationId).isSome = true) ∧
    (∀ s c ti b data id now pres r s' tr,
        sendToParent s c ti b data id now pres = some (r, s', tr) →
        noPersistAfterPush tr = true ∧
        (getDoc s'.parentNotifications r.notificationId).isSome = true) ∧
    (∀ s c loc id now nid mid s' tr,
        sosHandler s c loc id now none = (SosOutcome.ok nid mid, s', tr) →
        (getDoc s'.parentNotifications nid).isSome = true) := by
  refine ⟨?_, ?_, ?_, ?_⟩
  · intro s t ti b ty data pr fr id now pres r s' tr h
    match hreg : getDoc s.deviceRegistrations t with
    | none => rw [sendNotificationToUser, hreg] at h; exact absurd h (by simp)
    | some reg =>
        obtain ⟨r₀, s₀, tr₀, h₀, hid, hcol, htr, hpers⟩ :=
          sendNotificationToUser_ok s t ti b ty data pr fr id now pres reg hreg
        rw [h₀] at h
        obtain ⟨rfl, rfl, rfl⟩ := by
          simpa [Prod.mk.injEq] using Option.some.inj h
        exact ⟨htr, by rw [hcol, hid]; exact hpers⟩
  · intro s t ti b data pr dt id now pres r s' tr h
    unfold sendEndpoint at h
    by_cases hv : (t = "" || ti = "" || b = "") = true
    · rw [if_pos hv] at h; exact absurd h (by simp)
    · rw [if_neg hv] at h
      simp only at h
      match htok : pushToken s t with
      | none =>
          rw [htok] at h
          obtain ⟨rfl, rfl, rfl⟩ := by
            simpa [Prod.mk.injEq] using Option.some.inj h
          refine ⟨rfl, ?_⟩
          rw [getNotif_addNotif_self]
          rfl
      | some tok =>
          rw [htok] at h
          obtain ⟨rfl, rfl, rfl⟩ := by
            simpa [Prod.mk.injEq] using Option.some.inj h
          refine ⟨rfl, ?_⟩
          rw [getNotif_addNotif_self]
          rfl
  · intro s c ti b data id now pres r s' tr h
    unfold sendToParent at h
    by_cases hv : (c = "" || ti = "" || b = "") = true
    · rw [if_pos hv] at h; exact absurd h (by simp)
    · rw [if_neg hv] at h
      match hreg : getDoc s.deviceRegistrations c with
      | none => rw [hreg] at h; exact absurd h (by simp)
      | some creg =>
          rw [hreg] at h
          simp only at h
          match hlink : creg.linkedTo with
          | none => rw [hlink] at h; exact absurd h (by simp)
          | some parentId =>
              rw [hlink] at h
              simp only at h
              by_cases hpe : parentId = ""
              · rw [if_pos hpe] at h; exact absurd h (by simp)
              · rw [if_neg hpe] at h
                match htok : pushToken s parentId with
                | none =>
                    rw [htok] at h
                    obtain ⟨rfl, rfl, rfl⟩ := by
                      simpa [Prod.mk.injEq] using Option.some.inj h
                    exact ⟨rfl, by rw [getDoc_putDoc_self]; rfl⟩
                | some tok =>
                    rw [htok] at h
                    obtain ⟨rfl, rfl, rfl⟩ := by
                      simpa [Prod.mk.injEq] using Option.some.inj h
                    exact ⟨rfl, by rw [getDoc_putDoc_self]; rfl⟩
  · intro s c loc id now nid mid s' tr h
    unfold sosHandler at h
    by_cases hce : c = ""
    · rw [if_pos hce] at h; exact absurd h (by simp)
    · rw [if_neg hce] at h
      match hreg : getDoc s.deviceRegistrations c with
      | none => rw [hreg] at h; exact absurd h (by simp)
      | some creg =>
          rw [hreg] at h
          simp only at h
          match hlink : creg.linkedTo with
          | none => rw [hlink] at h; exact absurd h (by simp)
          | some parentId =>
              rw [hlink] at h
              simp only at h
              by_cases hpe : parentId = ""
              · rw [if_pos hpe] at h; exact absurd h (by simp)
              · rw [if_neg hpe] at h
                match hpr : getDoc s.deviceRegistrations parentId with
                | none => rw [hpr] at h; exact absurd h (by simp)
                | some preg =>
                    rw [hpr] at h
                    simp only at h
                    match htok : preg.fcmToken with
                    | none => rw [htok] at h; exact absurd h (by simp)
                    | some tok =>
                        rw [htok] at h
                        simp only at h
                        by_cases htk : tok = ""
                        · rw [if_pos htk] at h; exact absurd h (by simp)
                        · rw [if_neg htk] at h
                          obtain ⟨hout, rfl, rfl⟩ := by
                            simpa [Prod.mk.injEq] using h
                          obtain ⟨rfl, rfl⟩ := hout
                          rw [getDoc_putDoc_self]
                          rfl

/-- Witness for the amended C3: a registered child target with no token —
the trace is persist-only and the document is stored. -/
theorem claim_C3_persist_vs_push_witness :
    noPersistAfterPush [Event.persistNotif "childNotifications" "n1"] = true ∧
    (getNotif
        { deviceRegistrations := [("child1", { deviceType := some "child" })],
          childNotifications :=
            [("n1", { userId := "child1", title := "t", body := "b", message := "b",
                      ntype := "i", read := false, priority := "high",
                      timestamp := 3 })] }
        "childNotifications" "n1").isSome = true := by
  have h := claim_C3_persist_vs_push.1
    { deviceRegistrations := [("child1", { deviceType := some "child" })] }
    "child1" "t" "b" "i" [] "high" none "n1" 3 none _ _ _ (by rfl)
  exact ⟨h.1, h.2⟩

/-- C4 as stated is false: when no push is attempted the response's push-id
field (`messageId`) is not null — the code falls back to the persisted
notification id. -/
theorem claim_C4_counterexample :
    (sendEndpoint { deviceRegistrations := [("child1", { deviceType := some "child" })] }
        "child1" "⏱ Limit" "TikTok capped"
        (some [("app", "TikTok"), ("limit", "60"), ("type", "limit_set")])
        (some "normal") none "n1" 3 none).map (fun x => x.1.messageId)
      = some (some "n1") ∧
    (sendEndpoint { deviceRegistrations := [("child1", { deviceType := some "child" })] }
        "child1" "⏱ Limit" "TikTok capped"
        (some [("app", "TikTok"), ("limit", "60"), ("type", "limit_set")])
        (some "normal") none "n1" 3 none).map (fun x => x.1.messageId)
      ≠ some none := by
  exact ⟨rfl, by decide⟩

/-- C4 amended: a send whose target has no truthy push token, or whose push
fails, still succeeds, persists the document, and returns the persisted id —
with the response `messageId` falling back to that same id, not null. -/
theorem claim_C4_send_fallback (s : ServerState) (t ti b : String)
    (data : Option (List (String × String))) (pr dt : Option String)
    (id : String) (now : Nat) (pres : Option String)
    (r : SendResponse) (s' : ServerState) (tr : List Event)
    (h : sendEndpoint s t ti b data pr dt id now pres = some (r, s', tr))
    (hnp : pushToken s t = none ∨ pres = none) :
    r.success = true ∧ r.notificationId = id ∧ r.messageId = some id ∧
    (getNotif s' r.collection id).isSome = true := by
  unfold sendEndpoint at h
  by_cases hv : (t = "" || ti = "" || b = "") = true
  · rw [if_pos hv] at h; exact absurd h (by simp)
  · rw [if_neg hv] at h
    simp only at h
    match htok : pushToken s t with
    | none =>
        rw [htok] at h
        obtain ⟨rfl, rfl, rfl⟩ := by
          simpa [Prod.mk.injEq] using Option.some.inj h
        refine ⟨rfl, rfl, rfl, ?_⟩
        rw [getNotif_addNotif_self]
        rfl
    | some tok =>
        rw [htok] at h
        obtain ⟨rfl, rfl, rfl⟩ := by
          simpa [Prod.mk.injEq] using Option.some.inj h
        have hpres : pres = none := by
          rcases hnp with hcon | hp
          · rw [htok] at hcon; exact absurd hcon (by simp)
          · exact hp
        subst hpres
        refine ⟨rfl, rfl, rfl, ?_⟩
        rw [getNotif_addNotif_self]
        rfl

/-- Witness for the amended C4: registered target with no token. -/
theorem claim_C4_send_fallback_witness :
    ∃ r s' tr,
      sendEndpoint { deviceRegistrations := [("child1", { deviceType := some "child" })] }
          "child1" "⏱ Limit" "TikTok capped"
          (some [("app", "TikTok"), ("limit", "60"), ("type", "limit_set")])
          (some "normal") none "n2" 3 none = some (r, s', tr) ∧
      r.success = true ∧ r.notificationId = "n2" ∧ r.messageId = some "n2" ∧
      (getNotif s' r.collection "n2").isSome = true := by
  obtain ⟨⟨r, s', tr⟩, hx⟩ :
      ∃ x, sendEndpoint
          { deviceRegistrations := [("child1", { deviceType := some "child" })] }
          "child1" "⏱ Limit" "TikTok capped"
          (some [("app", "TikTok"), ("limit", "60"), ("type", "limit_set")])
          (some "normal") none "n2" 3 none = some x := ⟨_, rfl⟩
  exact ⟨r, s', tr, hx,
    claim_C4_send_fallback
      { deviceRegistrations := [("child1", { deviceType := some "child" })] }
      "child1" "⏱ Limit" "TikTok capped"
      (some [("app", "TikTok"), ("limit", "60"), ("type", "limit_set")])
      (some "normal") none "n2" 3 none r s' tr hx (Or.inl rfl)⟩

/-- C7: cleanup deletes exactly the notifications beyond the 30 most recent
by timestamp in one batch — the count and the remainder are as stated, every
deleted document is no newer than any kept one, and re-running on a
partition holding at most 30 documents deletes nothing. -/
theorem claim_C7_cleanup (l : List (String × Nat)) :
    cleanupDeletedCount l = l.length - 30 ∧
    (cleanupKept l).length = min 30 l.length ∧
    (cleanupKept l ++ cleanupDeleted l).Perm l ∧
    (∀ a, a ∈ cleanupKept l → ∀ b, b ∈ cleanupDeleted l → b.2 ≤ a.2) ∧
    cleanupDeletedCount (cleanupKept l) = 0 := by
  have hlen : (sortTsDesc l).length = l.length :=
    List.length_insertionSort _ l
  refine ⟨?_, ?_, ?_, ?_, ?_⟩
  · rw [cleanupDeletedCount, cleanupDeleted, List.length_drop, hlen]
  · rw [cleanupKept, List.length_take, hlen]
  · rw [cleanupKept, cleanupDeleted, List.take_append_drop]
    exact List.perm_insertionSort _ l
  · intro a ha b hb
    have hs : List.Sorted (fun a b : String × Nat => b.2 ≤ a.2) (sortTsDesc l) :=
      List.sorted_insertionSort _ l
    exact hs.rel_of_mem_take_of_mem_drop ha hb
  · rw [cleanupDeletedCount, cleanupDeleted, List.length_drop, sortTsDesc,
      List.length_insertionSort, cleanupKept, List.length_take, hlen]
    exact Nat.sub_eq_zero_of_le (min_le_left _ _)

/-- Witness for C7 on a 32-document partition: two documents deleted, the
oldest is no newer than the newest kept one, rerun deletes nothing. -/
theorem claim_C7_cleanup_witness :
    cleanupDeletedCount ((List.range 32).map (fun i => ("", i)))
      = ((List.range 32).map (fun i => ("", i))).length - 30 ∧
    (cleanupKept ((List.range 32).map (fun i => ("", i)))).length
      = min 30 ((List.range 32).map (fun i => ("", i))).length ∧
    (cleanupKept ((List.range 32).map (fun i => ("", i)))
        ++ cleanupDeleted ((List.range 32).map (fun i => ("", i)))).Perm
      ((List.range 32).map (fun i => ("", i))) ∧
    (("", 0) : String × Nat).2 ≤ (("", 31) : String × Nat).2 ∧
    cleanupDeletedCount (cleanupKept ((List.range 32).map (fun i => ("", i)))) = 0 := by
  have h := claim_C7_cleanup ((List.range 32).map (fun i => ("", i)))
  exact ⟨h.1, h.2.1, h.2.2.1,
    h.2.2.2.1 ("", 31) (by decide) ("", 0) (by decide), h.2.2.2.2⟩

/-- C8 as stated is false: the read-all handler never touches the
partitioned collections, so an unread notification of the user in the
to-parent partition stays unread. -/
theorem claim_C8_counterexample :
    ((readAllHandler
        { parentNotifications :=
            [("n1", { userId := "p1", title := "T", body := "B", message := "B",
                      ntype := "info", read := false, priority := "normal",
                      timestamp := 1 })] } "p1" 9).1).parentNotifications
      = [("n1", { userId := "p1", title := "T", body := "B", message := "B",
                  ntype := "info", read := false, priority := "normal",
                  timestamp := 1 })] ∧
    (readAllHandler
        { parentNotifications :=
            [("n1", { userId := "p1", title := "T", body := "B", message := "B",
                      ntype := "info", read := false, priority := "normal",
                      timestamp := 1 })] } "p1" 9).2 = 0 := by
  exact ⟨rfl, rfl⟩

/-- The document update the read-all batch applies. -/
def markStamp (n : Notif) (now : Nat) : Notif :=
  { n with read := true, readAt := some now }

theorem markStamp_markStamp (n : Notif) (now : Nat) :
    markStamp (markStamp n now) now = markStamp n now := rfl

theorem foldl_markReadById (now : Nat) (ids : List String) (l : List (String × Notif)) :
    ids.foldl (fun acc id => markReadById acc id now) l
      = l.map (fun p => if p.1 ∈ ids then (p.1, markStamp p.2 now) else p) := by
  induction ids generalizing l with
  | nil => simp
  | cons a ids ih =>
      rw [List.foldl_cons, ih, markReadById, List.map_map]
      refine List.map_congr_left ?_
      intro p _
      obtain ⟨x, n⟩ := p
      by_cases hxa : x = a
      · subst hxa
        by_cases hin : x ∈ ids <;>
          simp [hin, markStamp, Function.comp, List.mem_cons]
      · simp [hxa, Function.comp, List.mem_cons, markStamp]

/-- C8 amended: the read-all handler marks, in one batch, exactly the
currently-unread documents of the user in the legacy `notifications`
collection (stamping `readAt`), leaves every other legacy document
untouched, and never modifies the two partitioned collections. -/
theorem claim_C8_read_all (s : ServerState) (u : String) (now : Nat)
    (hnd : (s.notifications.map Prod.fst).Nodup) :
    (readAllHandler s u now).1.parentNotifications = s.parentNotifications ∧
    (readAllHandler s u now).1.childNotifications = s.childNotifications ∧
    (readAllHandler s u now).1.notifications
      = s.notifications.map
          (fun p => if p.2.userId = u ∧ p.2.read = false
            then (p.1, markStamp p.2 now) else p) ∧
    (readAllHandler s u now).2
      = (s.notifications.filter
          (fun p => p.2.userId == u && p.2.read == false)).length := by
  refine ⟨rfl, rfl, ?_, rfl⟩
  show ((s.notifications.filter
        (fun p => p.2.userId == u && p.2.read == false)).map
          (fun p => p.1)).foldl (fun acc id => markReadById acc id now)
        s.notifications = _
  rw [foldl_markReadById]
  refine List.map_congr_left ?_
  intro p hp
  by_cases hcond : p.2.userId = u ∧ p.2.read = false
  · have hmem : p.1 ∈ (s.notifications.filter
        (fun q => q.2.userId == u && q.2.read == false)).map (fun q => q.1) := by
      refine List.mem_map.mpr ⟨p, ?_, rfl⟩
      refine List.mem_filter.mpr ⟨hp, ?_⟩
      simp [hcond.1, hcond.2]
    rw [if_pos hmem, if_pos hcond]
  · have hnmem : p.1 ∉ (s.notifications.filter
        (fun q => q.2.userId == u && q.2.read == false)).map (fun q => q.1) := by
      intro hmem
      obtain ⟨q, hqf, hq1⟩ := List.mem_map.mp hmem
      have hql := List.mem_filter.mp hqf
      have hqcond : q.2.userId = u ∧ q.2.read = false := by
        have := hql.2
        simp only [Bool.and_eq_true, beq_iff_eq] at this
        exact this
      have : q = p := List.inj_on_of_nodup_map hnd hql.1 hp hq1
      exact hcond (this ▸ hqcond)
    rw [if_neg hnmem, if_neg hcond]

/-- Witness for the amended C8: one unread legacy document of the user is
marked and stamped; the partitions are untouched. -/
theorem claim_C8_read_all_witness :
    (readAllHandler
        { notifications :=
            [("a", { userId := "u", title := "t", body := "b", message := "b",
                     ntype := "i", read := false, priority := "n",
                     timestamp := 2 })] } "u" 7).1.parentNotifications = [] ∧
    (readAllHandler
        { notifications :=
            [("a", { userId := "u", title := "t", body := "b", message := "b",
                     ntype := "i", read := false, priority := "n",
                     timestamp := 2 })] } "u" 7).1.childNotifications = [] ∧
    (readAllHandler
        { notifications :=
            [("a", { userId := "u", title := "t", body := "b", message := "b",
                     ntype := "i", read := false, priority := "n",
                     timestamp := 2 })] } "u" 7).1.notifications
      = [("a", markStamp
            { userId := "u", title := "t", body := "b", message := "b",
              ntype := "i", read := false, priority := "n", timestamp := 2 } 7)] ∧
    (readAllHandler
        { notifications :=
            [("a", { userId := "u", title := "t", body := "b", message := "b",
                     ntype := "i", read := false, priority := "n",
                     timestamp := 2 })] } "u" 7).2 = 1 := by
  have h := claim_C8_read_all
    { notifications :=
        [("a", { userId := "u", title := "t", body := "b", message := "b",
                 ntype := "i", read := false, priority := "n",
                 timestamp := 2 })] } "u" 7 (by decide)
  refine ⟨h.1, h.2.1, ?_, ?_⟩
  · rw [h.2.2.1]
    rfl
  · rw [h.2.2.2]
    rfl

/-- C10 as stated is false on one point: for the hardcoded pair with the
child registration absent, the verification is skipped but the command send
itself throws (`Target user not found`), so no device_lock command is sent —
the handler answers 500 and the state is unchanged. -/
theorem claim_C10_counterexample :
    (remoteLock {} "azizurgreat111@gmail.com" "1unknown.annonymous1@gmail.com"
        "n1" 3 none).1 = LockOutcome.sendFailed ∧
    ((remoteLock {} "azizurgreat111@gmail.com" "1unknown.annonymous1@gmail.com"
        "n1" 3 none).2.1).childNotifications = [] ∧
    (remoteUnlock {} "azizurgreat111@gmail.com" "1unknown.annonymous1@gmail.com"
        "n1" 3 none).1 = LockOutcome.sendFailed := by
  exact ⟨rfl, rfl, rfl⟩

/-- Success of the lock/unlock command tail when the child registration
exists: the notification is sent and persisted. -/
theorem commandSend_ok (s : ServerState) (c ti b ty : String)
    (data : List (String × String)) (p id : String) (now : Nat)
    (pres : Option String) (reg : DeviceReg)
    (hreg : getDoc s.deviceRegistrations c = some reg) :
    ∃ mid s' tr,
      (match sendNotificationToUser s c ti b ty data "high" (some p) id now pres with
       | none => (LockOutcome.sendFailed, s, ([] : List Event))
       | some (r, s', tr) => (LockOutcome.ok r.notificationId r.messageId, s', tr))
        = (LockOutcome.ok id mid, s', tr) ∧
      (getNotif s' (getNotificationCollection reg.deviceType) id).isSome = true := by
  obtain ⟨r, s', tr, hsnu, hid, hcol, htr, hpers⟩ :=
    sendNotificationToUser_ok s c ti b ty data "high" (some p) id now pres reg hreg
  refine ⟨r.messageId, s', tr, ?_, hpers⟩
  rw [hsnu]
  show (LockOutcome.ok r.notificationId r.messageId, s', tr)
      = (LockOutcome.ok id r.messageId, s', tr)
  rw [hid]

/-- C10 amended: for the hardcoded pair the linked-parent verification is
skipped entirely — the command is sent whenever the child registration
exists, even when its `linkedTo` names a different parent — but when the
child registration is absent the send throws and no command goes out; for
every other pair the command is refused (404/403) unless the child's
`linkedTo` equals the given parentId, in which case it is sent. -/
theorem claim_C10_hardcoded_pair :
    (∀ (s : ServerState) (id : String) (now : Nat) (pres : Option String),
        getDoc s.deviceRegistrations "1unknown.annonymous1@gmail.com" = none →
        remoteLock s "azizurgreat111@gmail.com" "1unknown.annonymous1@gmail.com"
            id now pres = (.sendFailed, s, []) ∧
        remoteUnlock s "azizurgreat111@gmail.com" "1unknown.annonymous1@gmail.com"
            id now pres = (.sendFailed, s, [])) ∧
    (∀ (s : ServerState) (reg : DeviceReg) (id : String) (now : Nat)
        (pres : Option String),
        getDoc s.deviceRegistrations "1unknown.annonymous1@gmail.com" = some reg →
        (∃ mid s' tr,
          remoteLock s "azizurgreat111@gmail.com" "1unknown.annonymous1@gmail.com"
              id now pres = (.ok id mid, s', tr) ∧
          (getNotif s' (getNotificationCollection reg.deviceType) id).isSome = true) ∧
        (∃ mid s' tr,
          remoteUnlock s "azizurgreat111@gmail.com" "1unknown.annonymous1@gmail.com"
              id now pres = (.ok id mid, s', tr) ∧
          (getNotif s' (getNotificationCollection reg.deviceType) id).isSome = true)) ∧
    (∀ (s : ServerState) (p c id : String) (now : Nat) (pres : Option String),
        ¬(p = "azizurgreat111@gmail.com" ∧ c = "1unknown.annonymous1@gmail.com") →
        p ≠ "" → c ≠ "" →
        getDoc s.deviceRegistrations c = none →
        remoteLock s p c id now pres = (.childNotFound, s, []) ∧
        remoteUnlock s p c id now pres = (.childNotFound, s, [])) ∧
    (∀ (s : ServerState) (p c id : String) (reg : DeviceReg) (now : Nat)
        (pres : Option String),
        ¬(p = "azizurgreat111@gmail.com" ∧ c = "1unknown.annonymous1@gmail.com") →
        p ≠ "" → c ≠ "" →
        getDoc s.deviceRegistrations c = some reg → reg.linkedTo ≠ some p →
        remoteLock s p c id now pres = (.notAuthorized, s, []) ∧
        remoteUnlock s p c id now pres = (.notAuthorized, s, [])) ∧
    (∀ (s : ServerState) (p c id : String) (reg : DeviceReg) (now : Nat)
        (pres : Option String),
        ¬(p = "azizurgreat111@gmail.com" ∧ c = "1unknown.annonymous1@gmail.com") →
        p ≠ "" → c ≠ "" →
        getDoc s.deviceRegistrations c = some reg → reg.linkedTo = some p →
        (∃ mid s' tr,
          remoteLock s p c id now pres = (.ok id mid, s', tr) ∧
          (getNotif s' (getNotificationCollection reg.deviceType) id).isSome = true) ∧
        (∃ mid s' tr,
          remoteUnlock s p c id now pres = (.ok id mid, s', tr) ∧
          (getNotif s' (getNotificationCollection reg.deviceType) id).isSome = true)) := by
  refine ⟨?_, ?_, ?_, ?_, ?_⟩
  · intro s id now pres h
    constructor
    · unfold remoteLock
      rw [if_neg (by decide), if_pos (by decide), sendNotificationToUser, h]
    · unfold remoteUnlock
      rw [if_neg (by decide), if_pos (by decide), sendNotificationToUser, h]
  · intro s reg id now pres hreg
    constructor
    · exact commandSend_ok s "1unknown.annonymous1@gmail.com" "🔒 Device Locked"
        "Your device has been remotely locked by your parent" "device_lock"
        [("action", "lock"), ("parentId", "azizurgreat111@gmail.com"),
         ("timestamp", toString now)]
        "azizurgreat111@gmail.com" id now pres reg hreg
    · exact commandSend_ok s "1unknown.annonymous1@gmail.com" "🔓 Device Unlocked"
        "Your device has been remotely unlocked by your parent" "device_unlock"
        [("action", "unlock"), ("parentId", "azizurgreat111@gmail.com"),
         ("timestamp", toString now)]
        "azizurgreat111@gmail.com" id now pres reg hreg
  · intro s p c id now pres hnp hpne hcne h
    constructor
    · unfold remoteLock
      rw [if_neg (by simp [hpne, hcne]),
        if_neg (by simp only [Bool.and_eq_true, decide_eq_true_eq]; exact hnp), h]
    · unfold remoteUnlock
      rw [if_neg (by simp [hpne, hcne]),
        if_neg (by simp only [Bool.and_eq_true, decide_eq_true_eq]; exact hnp), h]
  · intro s p c id reg now pres hnp hpne hcne hreg hlk
    constructor
    · unfold remoteLock
      rw [if_neg (by simp [hpne, hcne]),
        if_neg (by simp only [Bool.and_eq_true, decide_eq_true_eq]; exact hnp), hreg]
      simp only [if_neg hlk]
    · unfold remoteUnlock
      rw [if_neg (by simp [hpne, hcne]),
        if_neg (by simp only [Bool.and_eq_true, decide_eq_true_eq]; exact hnp), hreg]
      simp only [if_neg hlk]
  · intro s p c id reg now pres hnp hpne hcne hreg hlk
    constructor
    · unfold remoteLock
      rw [if_neg (by simp [hpne, hcne]),
        if_neg (by simp only [Bool.and_eq_true, decide_eq_true_eq]; exact hnp), hreg]
      simp only [if_pos hlk]
      exact commandSend_ok s c "🔒 Device Locked"
        "Your device has been remotely locked by your parent" "device_lock"
        [("action", "lock"), ("parentId", p), ("timestamp", toString now)]
        p id now pres reg hreg
    · unfold remoteUnlock
      rw [if_neg (by simp [hpne, hcne]),
        if_neg (by simp only [Bool.and_eq_true, decide_eq_true_eq]; exact hnp), hreg]
      simp only [if_pos hlk]
      exact commandSend_ok s c "🔓 Device Unlocked"
        "Your device has been remotely unlocked by your parent" "device_unlock"
        [("action", "unlock"), ("parentId", p), ("timestamp", toString now)]
        p id now pres reg hreg

/-- Witness for the amended C10: the hardcoded pair with the child linked to
a DIFFERENT parent — the lock command is still sent. -/
theorem claim_C10_hardcoded_pair_witness :
    ∃ mid s' tr,
      remoteLock
          { deviceRegistrations :=
              [("1unknown.annonymous1@gmail.com",
                { deviceType := some "child", linkedTo := some "someoneelse@x" })] }
          "azizurgreat111@gmail.com" "1unknown.annonymous1@gmail.com"
          "n1" 0 none = (.ok "n1" mid, s', tr) ∧
      (getNotif s' (getNotificationCollection (some "child")) "n1").isSome = true :=
  ((claim_C10_hardcoded_pair.2.1
    { deviceRegistrations :=
        [("1unknown.annonymous1@gmail.com",
          { deviceType := some "child", linkedTo := some "someoneelse@x" })] }
    { deviceType := some "child", linkedTo := some "someoneelse@x" }
    "n1" 0 none (by rfl)).1)

end ParentZone
